import Mathlib

/-!
# Verification of the pro5 map-dashboard state model

Shallow embedding of the marker-selection state machine and province/POI
filtering logic shared by the source variants of the repository
(`optimized.py`, `redtogreen.py`, `provinceszipped.py`, `provinceszipped2.py`,
`optimizedzipped.py`, `optimizedzipped2.py`, `optimized-dash-app.py`,
`ultraoptimized.py`).

The embedded state is exactly what the Dash apps keep in their stores:
* the clicked-marker store (`dcc.Store(id='clicked-markers', data=[])`) is a
  Python list of marker-id strings, embedded as `List MarkerId`;
* the province selection (`dcc.Dropdown(..., multi=True)` value) is a Python
  list of province-name strings, embedded as `List String` (the `None` value
  the dropdown delivers before first use behaves exactly like the empty list
  in every variant, so it is embedded as `[]`).

Plotly click events reach the callbacks as `clickData`; each variant only
inspects (a) whether click data with a `points` entry is present, (b) whether
the clicked point carries `customdata`, and (c) the marker-id string in that
`customdata`.  (The variants that attach `customdata=[poi['marker_id']]` per
single-point trace read `point['customdata'][0]`; the ones that attach one
list for a whole trace receive the per-point element and read
`point['customdata']` directly.  Either way the callback sees one marker-id
string, which is what `ClickData.point (some m)` carries.)
-/

namespace Pro5

/-- Marker identifier: e.g. `"Ontario_CN Tower"` or `"Ontario_CN Tower_0"`. -/
abbrev MarkerId := String

/-- A point of interest as stored in `poi_df` of `src/optimized.py`
(columns `province`, `place`, `lat`, `lon`, `marker_id`); the same record
shape underlies the per-province POI dictionaries of the other variants. -/
structure Poi where
  province : String
  place : String
  lat : Rat
  lon : Rat
  marker_id : MarkerId
deriving DecidableEq, Repr

/-- A marker-click event as seen by an `update_clicked_markers` callback:
either no usable click data (`clickData` is `None` or has no `'points'` key),
or a clicked point whose `customdata` is absent (a click on a province shape)
or carries a marker id. -/
inductive ClickData where
  | noClick
  | point (customdata : Option MarkerId)
deriving DecidableEq, Repr

namespace optimized

/-- `src/optimized.py`, lines 278-294 (`update_clicked_markers`):
returns the store unchanged unless a point with `customdata` was clicked;
then removes the id if present (`[mid for mid in current_clicked if mid !=
marker_id]`) and appends it otherwise (`current_clicked + [marker_id]`). -/
def update_clicked_markers (clickData : ClickData) (current_clicked : List MarkerId) :
    List MarkerId :=
  match clickData with
  | .noClick => current_clicked
  | .point none => current_clicked
  | .point (some marker_id) =>
      if marker_id ∈ current_clicked then
        current_clicked.filter (fun mid => mid != marker_id)
      else
        current_clicked ++ [marker_id]

/-- `src/optimized.py`, lines 209-244 (`update_province_map`): when the
selection is empty (or `None`) the function returns before any POI marker is
added, so no POI is visible; otherwise the POIs are filtered by
`poi_df[poi_df['province'].isin(selected_provinces)]`. -/
def visiblePois (selected_provinces : List String) (pois : List Poi) : List Poi :=
  if selected_provinces.isEmpty then []
  else pois.filter (fun p => decide (p.province ∈ selected_provinces))

/-- `src/optimized.py`, lines 249-251: marker color is
`'green' if x in clicked_markers else 'red'`. -/
def markerColor (marker_id : MarkerId) (clicked_markers : List MarkerId) : String :=
  if marker_id ∈ clicked_markers then "green" else "red"

end optimized

namespace redtogreen

/-- `src/redtogreen.py`, lines 154-161 (`update_clicked_markers`): adds the
clicked marker id when it is not yet in the store and otherwise returns the
store unchanged — this variant never removes an id. -/
def update_clicked_markers (clickData : ClickData) (current_clicked : List MarkerId) :
    List MarkerId :=
  match clickData with
  | .noClick => current_clicked
  | .point none => current_clicked
  | .point (some marker_id) =>
      if marker_id ∉ current_clicked then current_clicked ++ [marker_id]
      else current_clicked

/-- `src/redtogreen.py`, lines 110-127 (`update_map`): a POI's markers are
added when `not selected_provinces or province in selected_provinces`, i.e.
with an empty selection every POI is shown. -/
def visiblePois (selected_provinces : List String) (pois : List Poi) : List Poi :=
  pois.filter (fun p =>
    selected_provinces.isEmpty || decide (p.province ∈ selected_provinces))

end redtogreen

namespace provinceszipped

/-- `src/provinceszipped.py`, lines 115-122 (`update_clicked_markers`):
add-only, same logic as the redtogreen variant. -/
def update_clicked_markers (clickData : ClickData) (current_clicked : List MarkerId) :
    List MarkerId :=
  match clickData with
  | .noClick => current_clicked
  | .point none => current_clicked
  | .point (some marker_id) =>
      if marker_id ∉ current_clicked then current_clicked ++ [marker_id]
      else current_clicked

end provinceszipped

namespace provinceszipped2

/-- `src/provinceszipped2.py`, lines 272-279 (`update_clicked_markers`):
add-only (reads `point['customdata'][0]`). -/
def update_clicked_markers (clickData : ClickData) (current_clicked : List MarkerId) :
    List MarkerId :=
  match clickData with
  | .noClick => current_clicked
  | .point none => current_clicked
  | .point (some marker_id) =>
      if marker_id ∉ current_clicked then current_clicked ++ [marker_id]
      else current_clicked

end provinceszipped2

namespace optimizedzipped

/-- `src/optimizedzipped.py`, lines 151-158 (`update_clicked_markers`):
add-only. -/
def update_clicked_markers (clickData : ClickData) (current_clicked : List MarkerId) :
    List MarkerId :=
  match clickData with
  | .noClick => current_clicked
  | .point none => current_clicked
  | .point (some marker_id) =>
      if marker_id ∉ current_clicked then current_clicked ++ [marker_id]
      else current_clicked

end optimizedzipped

namespace optimizedzipped2

/-- `src/optimizedzipped2.py`, lines 223-235 (`update_clicked_markers`):
toggle — removes the id when present (`[m for m in current_clicked if m !=
marker_id]`), appends it otherwise.  (The final `current_clicked or []` of
the source only converts a `None` store to `[]`, which the `List` embedding
already represents as `[]`.) -/
def update_clicked_markers (clickData : ClickData) (current_clicked : List MarkerId) :
    List MarkerId :=
  match clickData with
  | .noClick => current_clicked
  | .point none => current_clicked
  | .point (some marker_id) =>
      if marker_id ∉ current_clicked then current_clicked ++ [marker_id]
      else current_clicked.filter (fun m => m != marker_id)

end optimizedzipped2

namespace dashApp

/-- `src/optimized-dash-app.py`, lines 188-225 (`update_clicked_markers`),
first output (the clicked-marker store; the second output is a pure
informational string for the UI): toggle — appends the id when absent,
removes it (`[m for m in current_clicked if m != marker_id]`) when present.
The initial `if not current_clicked: current_clicked = []` only converts a
`None` store to `[]`. -/
def update_clicked_markers (clickData : ClickData) (current_clicked : List MarkerId) :
    List MarkerId :=
  match clickData with
  | .noClick => current_clicked
  | .point none => current_clicked
  | .point (some marker_id) =>
      if marker_id ∉ current_clicked then current_clicked ++ [marker_id]
      else current_clicked.filter (fun m => m != marker_id)

end dashApp

namespace ultraoptimized

/-- `src/ultraoptimized.py`, lines 145-158 (`update_clicked_markers`):
toggle, same logic as `optimized.py` (modulo `None` → `[]` normalisation of
the store, which the `List` embedding already provides). -/
def update_clicked_markers (clickData : ClickData) (current_clicked : List MarkerId) :
    List MarkerId :=
  match clickData with
  | .noClick => current_clicked
  | .point none => current_clicked
  | .point (some marker_id) =>
      if marker_id ∉ current_clicked then current_clicked ++ [marker_id]
      else current_clicked.filter (fun m => m != marker_id)

/-- `src/ultraoptimized.py`, lines 192-207 (`update_map`): POI markers are
added only under `if selected_provinces:`, filtered by
`notable_df[notable_df["Province"].isin(selected_provinces)]`. -/
def visiblePois (selected_provinces : List String) (pois : List Poi) : List Poi :=
  if selected_provinces.isEmpty then []
  else pois.filter (fun p => decide (p.province ∈ selected_provinces))

/-- `src/ultraoptimized.py`, lines 196-197: marker color is
`"green" if marker_id in clicked_markers else "red"`. -/
def markerColor (marker_id : MarkerId) (clicked_markers : List MarkerId) : String :=
  if marker_id ∈ clicked_markers then "green" else "red"

end ultraoptimized

/-!
## Combined interactive state

Each variant keeps the two pieces of user state in separate Dash components:
the province selection is the `'province-dropdown'` value (written only by
the UI dropdown itself) and the toggled markers live in the
`'clicked-markers'` store.  The click callback (`update_clicked_markers`)
declares `Output('clicked-markers', 'data')` as its only state output
(`src/optimized.py` lines 273-277, `src/ultraoptimized.py` lines 140-144),
so a marker click can write nothing but the toggle store, and a selection
change writes nothing but the dropdown value.
-/

/-- The session state shared by every variant: the dropdown selection and
the clicked-marker store. -/
structure AppState where
  selection : List String
  toggles : List MarkerId
deriving DecidableEq, Repr

/-- A `SelectionChanged` event: the dropdown writes its new value; no
callback writes the clicked-marker store in response. -/
def applySelectionChange (regions : List String) (st : AppState) : AppState :=
  { st with selection := regions }

/-- A `MarkerClicked` event dispatched to a variant's `update_clicked_markers`
callback `f`: the callback's only output is the clicked-marker store. -/
def applyMarkerClickWith (f : ClickData → List MarkerId → List MarkerId)
    (clickData : ClickData) (st : AppState) : AppState :=
  { st with toggles := f clickData st.toggles }

/-!
## Marker-identifier formation

`src/optimized-dash-app.py` line 137 (identically `src/ultraoptimized.py`
line 105, `src/optimizedzipped.py` line 126, `src/optimizedzipped2.py`
line 183) computes, once at startup over the static `notable_df` table,

    notable_df.apply(lambda row: f"{row['Province']}_{row['Place']}_{row.name}", axis=1)

where `row.name` is the row's positional index in the table.
`src/provinceszipped.py` line 197 applies the same f-string, but to the
`marker_subset` table that is rebuilt inside `update_map` on every render,
so there `row.name` is the row's position in the per-render filtered table.
-/

/-- The f-string `f"{Province}_{Place}_{index}"` shared by the variants. -/
def markerIdOf (province place : String) (idx : Nat) : String :=
  province ++ "_" ++ place ++ "_" ++ toString idx

namespace dashApp

/-- One row of `notable_places_data` in `src/optimized-dash-app.py`. -/
structure PoiRow where
  province : String
  place : String
  lat : Rat
  lon : Rat
deriving DecidableEq, Repr

/-- `src/optimized-dash-app.py` lines 65-131: the static POI table
(`notable_places_data`), 65 rows. -/
def notable_places_data : List PoiRow :=
  [⟨"Alberta", "Banff NP", 51.1784, -115.5708⟩,
   ⟨"Alberta", "Jasper NP", 52.8738, -117.9610⟩,
   ⟨"Alberta", "Calgary Tower", 51.0447, -114.0719⟩,
   ⟨"Alberta", "Lake Louise", 51.4254, -116.1773⟩,
   ⟨"Alberta", "West Edmonton Mall", 53.5225, -113.6242⟩,
   ⟨"British Columbia", "Stanley Park", 49.3017, -123.1417⟩,
   ⟨"British Columbia", "Butchart Gardens", 48.5636, -123.4683⟩,
   ⟨"British Columbia", "Whistler", 50.1163, -122.9574⟩,
   ⟨"British Columbia", "Capilano Bridge", 49.3431, -123.1139⟩,
   ⟨"British Columbia", "Pacific Rim NP", 49.0064, -125.6581⟩,
   ⟨"Manitoba", "The Forks", 49.8865, -97.1307⟩,
   ⟨"Manitoba", "Riding Mountain NP", 50.6625, -100.0333⟩,
   ⟨"Manitoba", "Assiniboine Zoo", 49.8731, -97.2461⟩,
   ⟨"Manitoba", "Museum for Human Rights", 49.8891, -97.1309⟩,
   ⟨"Manitoba", "FortWhyte Alive", 49.8274, -97.2398⟩,
   ⟨"New Brunswick", "Bay of Fundy", 45.2336, -66.1150⟩,
   ⟨"New Brunswick", "Hopewell Rocks", 45.8261, -64.5706⟩,
   ⟨"New Brunswick", "Fundy NP", 45.5960, -65.0018⟩,
   ⟨"New Brunswick", "Reversing Falls", 45.2502, -66.0864⟩,
   ⟨"New Brunswick", "Kings Landing", 45.9960, -66.9060⟩,
   ⟨"Newfoundland and Labrador", "Gros Morne NP", 49.6022, -57.7564⟩,
   ⟨"Newfoundland and Labrador", "Signal Hill", 47.5705, -52.6819⟩,
   ⟨"Newfoundland and Labrador", "L\x27Anse aux Meadows", 51.5965, -55.5308⟩,
   ⟨"Newfoundland and Labrador", "Cape Spear", 47.5227, -52.6173⟩,
   ⟨"Newfoundland and Labrador", "Bonavista", 48.6583, -53.1127⟩,
   ⟨"Nova Scotia", "Peggy\x27s Cove", 44.4948, -63.9189⟩,
   ⟨"Nova Scotia", "Cabot Trail", 46.7371, -60.3508⟩,
   ⟨"Nova Scotia", "Halifax Citadel", 44.6478, -63.5816⟩,
   ⟨"Nova Scotia", "Lunenburg", 44.3777, -64.3092⟩,
   ⟨"Nova Scotia", "Kejimkujik NP", 44.3800, -65.2175⟩,
   ⟨"Ontario", "CN Tower", 43.6426, -79.3871⟩,
   ⟨"Ontario", "Niagara Falls", 43.0962, -79.0716⟩,
   ⟨"Ontario", "Algonquin Park", 45.8333, -78.5000⟩,
   ⟨"Ontario", "Parliament Hill", 45.4235, -75.7000⟩,
   ⟨"Ontario", "Royal Ontario Museum", 43.6677, -79.3948⟩,
   ⟨"Prince Edward Island", "Green Gables", 46.4911, -63.3838⟩,
   ⟨"Prince Edward Island", "Cavindish Beach", 46.5011, -63.4187⟩,
   ⟨"Prince Edward Island", "Confederation Trail", 46.3335, -63.3008⟩,
   ⟨"Prince Edward Island", "PEI NP", 46.4127, -63.0878⟩,
   ⟨"Prince Edward Island", "Point Prim Lighthouse", 46.0477, -62.9975⟩,
   ⟨"Quebec", "Old Quebec", 46.8139, -71.2082⟩,
   ⟨"Quebec", "Mont-Tremblant", 46.1184, -74.5958⟩,
   ⟨"Quebec", "Montmorency Falls", 46.8855, -71.1510⟩,
   ⟨"Quebec", "Quebec City", 46.8139, -71.2080⟩,
   ⟨"Quebec", "Sainte-Anne-de-Beaupré", 47.0226, -70.9370⟩,
   ⟨"Saskatchewan", "Forestry Zoo", 52.1316, -106.6702⟩,
   ⟨"Saskatchewan", "Wanuskewin", 52.2163, -106.5931⟩,
   ⟨"Saskatchewan", "Prince Albert NP", 53.9837, -106.0173⟩,
   ⟨"Saskatchewan", "Wascana Centre", 50.4364, -104.6171⟩,
   ⟨"Saskatchewan", "RCMP Heritage Centre", 50.4359, -104.6615⟩,
   ⟨"Northwest Territories", "Nahanni NP", 61.5833, -125.5833⟩,
   ⟨"Northwest Territories", "Great Slave Lake", 62.0955, -114.3858⟩,
   ⟨"Northwest Territories", "Virginia Falls", 61.6031, -125.7744⟩,
   ⟨"Northwest Territories", "Yellowknife", 62.4540, -114.3718⟩,
   ⟨"Northwest Territories", "Wood Buffalo NP", 59.4675, -112.2124⟩,
   ⟨"Nunavut", "Auyuittuq NP", 67.8333, -65.0000⟩,
   ⟨"Nunavut", "Sylvia Grinnell Park", 63.7430, -68.5571⟩,
   ⟨"Nunavut", "Qaummaarviit Park", 63.7942, -68.5532⟩,
   ⟨"Nunavut", "Iqaluit", 63.7467, -68.5170⟩,
   ⟨"Nunavut", "Sirmilik NP", 72.9962, -81.2503⟩,
   ⟨"Yukon", "Kluane NP", 60.7500, -139.5000⟩,
   ⟨"Yukon", "Miles Canyon", 60.6599, -135.0262⟩,
   ⟨"Yukon", "SS Klondike", 60.7230, -135.0456⟩,
   ⟨"Yukon", "Whitehorse", 60.7197, -135.0522⟩,
   ⟨"Yukon", "Tombstone Park", 64.5167, -138.2167⟩]

/-- `src/optimized-dash-app.py` line 137: the marker-id column computed once
over the static table, `row.name` being the row's positional index. -/
def assignMarkerIds (rows : List PoiRow) : List String :=
  rows.enum.map fun p => markerIdOf p.2.province p.2.place p.1

/-- The concrete marker-id column of `notable_df`. -/
def markerIdList : List String :=
  assignMarkerIds notable_places_data

end dashApp

/-!
## The geopandas enrichment path of `src/provinceszipped.py`

`update_map` (lines 181-197) builds the per-render POI dataset: for each
selected province in selection order and each known place name of that
province, candidate points of the external `points_gdf` dataset are first
narrowed by `points_gdf["name"].str.contains(place, case=False, na=False)`
(a case-insensitive substring match — none of the place names contain
regex metacharacters) and then confirmed by
`row.geometry.within(province_poly)` where `province_poly` is the union of
the province's polygons.  The geometric test is delegated to the external
shapely collaborator, so it enters the embedding as the parameter `within`;
the place dictionary `province_to_places` enters as the parameter
`placesOf`.
-/

/-- A candidate point of the external POI dataset (`points_gdf`): a name and
a position (the position itself is only ever consumed by the external
geometry test). -/
structure GeoPoint where
  name : String
  lat : Rat
  lon : Rat
deriving DecidableEq, Repr

/-- One element of `filtered_rows` in `src/provinceszipped.py` line 189. -/
structure FilteredRow where
  province : String
  place : String
  lat : Rat
  lon : Rat
deriving DecidableEq, Repr

namespace provinceszipped

/-- `needle` occurs as a contiguous substring of `hay`. -/
def charsContain (needle : List Char) : List Char → Bool
  | [] => needle.isEmpty
  | c :: rest => needle.isPrefixOf (c :: rest) || charsContain needle rest

/-- `points_gdf["name"].str.contains(place, case=False, na=False)`:
case-insensitive substring match of the place name in the point's name
(both sides lower-cased character by character). -/
def nameContains (pointName place : String) : Bool :=
  charsContain (place.data.map Char.toLower) (pointName.data.map Char.toLower)

/-- The candidate points kept for one `(province, place)` pair: narrowed by
the substring match, then confirmed by the geometric containment test
(`src/provinceszipped.py` lines 186-188). -/
def includedFor (points : List GeoPoint) (within : GeoPoint → String → Bool)
    (prov place : String) : List GeoPoint :=
  (points.filter fun pt => nameContains pt.name place).filter fun pt => within pt prov

/-- `filtered_rows` of `src/provinceszipped.py` lines 182-194: the loops over
the selected provinces (in selection order) and their known places. -/
def buildRows (selected_provinces : List String) (placesOf : String → List String)
    (points : List GeoPoint) (within : GeoPoint → String → Bool) : List FilteredRow :=
  selected_provinces.flatMap fun prov =>
    (placesOf prov).flatMap fun place =>
      (includedFor points within prov place).map fun pt =>
        { province := prov, place := place, lat := pt.lat, lon := pt.lon }

/-- `src/provinceszipped.py` line 197: the marker-id column of the per-render
`marker_subset` table, `row.name` being the row's position in that table. -/
def markerIds (rows : List FilteredRow) : List String :=
  rows.enum.map fun p => markerIdOf p.2.province p.2.place p.1

end provinceszipped

/-!
## Concrete sample data used by witnesses and counterexamples
-/

/-- The Ontario CN Tower POI as it appears in `poi_df` of `src/optimized.py`
(line 110). -/
def cnTower : Poi :=
  ⟨"Ontario", "CN Tower", 43.6426, -79.3871, "Ontario_CN Tower"⟩

/-- Two candidate points for the enrichment path: one matching Banff NP in
Alberta, one matching the CN Tower in Ontario. -/
def cxPoints : List GeoPoint :=
  [⟨"Banff NP", 51.1784, -115.5708⟩, ⟨"CN Tower", 43.6426, -79.3871⟩]

/-- A concrete instance of the external geometric containment test for
`cxPoints`: the Banff point lies in Alberta, the CN Tower point in Ontario,
and neither lies in any other province. -/
def cxWithin (pt : GeoPoint) (prov : String) : Bool :=
  (pt.name == "Banff NP" && prov == "Alberta") ||
  (pt.name == "CN Tower" && prov == "Ontario")

/-- The Alberta and Ontario entries of the `province_to_places` dictionary
of `src/provinceszipped.py` lines 146-160. -/
def cxPlaces (prov : String) : List String :=
  if prov = "Alberta" then
    ["Banff NP", "Jasper NP", "Calgary Tower", "Lake Louise", "West Edmonton Mall"]
  else if prov = "Ontario" then
    ["CN Tower", "Niagara Falls", "Algonquin Park", "Parliament Hill",
     "Royal Ontario Museum"]
  else []

/-!
## Helper lemmas
-/

/-- Membership in the visible-POI subset of `src/optimized.py`: a POI is
visible exactly when the selection is nonempty, the POI belongs to the
collection, and its province is selected. -/
theorem mem_visiblePois_iff (sel : List String) (pois : List Poi) (p : Poi) :
    p ∈ optimized.visiblePois sel pois ↔ sel ≠ [] ∧ p ∈ pois ∧ p.province ∈ sel := by
  unfold optimized.visiblePois
  cases sel with
  | nil => simp
  | cons a l => simp [List.mem_filter]

/-- The visible-POI filters of `src/ultraoptimized.py` and `src/optimized.py`
are definitionally the same function. -/
theorem ultraoptimized_visiblePois_eq (sel : List String) (pois : List Poi) :
    ultraoptimized.visiblePois sel pois = optimized.visiblePois sel pois := rfl

/-!
## Claim theorems
-/

/-- Claim C1, counterexample: the claim cites the `update_clicked_markers`
of `src/redtogreen.py`, which is add-only — with `s = []` and
`m = "Ontario_CN Tower"`, clicking twice leaves the marker in the store, so
`toggle(m, toggle(m, s)) ≠ s`; the transition is not a pure toggle there. -/
theorem C1_counterexample :
    redtogreen.update_clicked_markers (.point (some "Ontario_CN Tower"))
      (redtogreen.update_clicked_markers (.point (some "Ontario_CN Tower")) []) ≠ [] := by
  decide

/-- Claim C1 (amended): in `src/optimized.py` the marker-click transition is
a pure toggle — if `m` is in the store it removes (every occurrence of) `m`,
otherwise it appends `m`, and applying it twice with the same `m` restores
the original membership (the store is a Python list used with set
semantics).  In `src/redtogreen.py` the transition only adds: clicking an
already-clicked marker leaves the store unchanged, so the double click
equals a single insertion rather than the identity. -/
theorem C1_amended_toggle (m : MarkerId) (s : List MarkerId) :
    (m ∈ s → optimized.update_clicked_markers (.point (some m)) s
        = s.filter (fun mid => mid != m)) ∧
    (m ∉ s → optimized.update_clicked_markers (.point (some m)) s = s ++ [m]) ∧
    (∀ x, x ∈ optimized.update_clicked_markers (.point (some m))
            (optimized.update_clicked_markers (.point (some m)) s) ↔ x ∈ s) ∧
    (m ∈ s → redtogreen.update_clicked_markers (.point (some m)) s = s) ∧
    (m ∉ s → redtogreen.update_clicked_markers (.point (some m)) s = s ++ [m]) := by
  refine ⟨fun h => by simp [optimized.update_clicked_markers, h],
          fun h => by simp [optimized.update_clicked_markers, h],
          ?_,
          fun h => by simp [redtogreen.update_clicked_markers, h],
          fun h => by simp [redtogreen.update_clicked_markers, h]⟩
  intro x
  by_cases hm : m ∈ s
  · have h1 : optimized.update_clicked_markers (.point (some m)) s
        = s.filter (fun mid => mid != m) := by
      simp [optimized.update_clicked_markers, hm]
    have h2 : m ∉ s.filter (fun mid => mid != m) := by
      simp [List.mem_filter]
    rw [h1]
    simp only [optimized.update_clicked_markers, if_neg h2]
    simp only [List.mem_append, List.mem_filter, List.mem_singleton, bne_iff_ne, ne_eq]
    constructor
    · rintro (⟨hx, _⟩ | rfl)
      · exact hx
      · exact hm
    · intro hx
      by_cases hxm : x = m
      · exact Or.inr hxm
      · exact Or.inl ⟨hx, hxm⟩
  · have h1 : optimized.update_clicked_markers (.point (some m)) s = s ++ [m] := by
      simp [optimized.update_clicked_markers, hm]
    have h2 : m ∈ s ++ [m] := by simp
    rw [h1]
    simp only [optimized.update_clicked_markers, if_pos h2]
    simp only [List.mem_filter, List.mem_append, List.mem_singleton, bne_iff_ne, ne_eq]
    constructor
    · rintro ⟨hx | rfl, hne⟩
      · exact hx
      · exact absurd rfl hne
    · intro hx
      exact ⟨Or.inl hx, fun heq => hm (heq ▸ hx)⟩

/-- Witness for `C1_amended_toggle` at concrete inputs: removing a clicked
marker in the optimized variant, and the add-only no-op in redtogreen. -/
theorem C1_amended_toggle_witness :
    optimized.update_clicked_markers (.point (some "Ontario_CN Tower"))
        ["Ontario_CN Tower", "Alberta_Banff NP"]
      = (["Ontario_CN Tower", "Alberta_Banff NP"] : List MarkerId).filter
          (fun mid => mid != "Ontario_CN Tower") ∧
    redtogreen.update_clicked_markers (.point (some "Alberta_Banff NP"))
        ["Alberta_Banff NP"]
      = ["Alberta_Banff NP"] :=
  ⟨(C1_amended_toggle "Ontario_CN Tower"
      ["Ontario_CN Tower", "Alberta_Banff NP"]).1 (by decide),
   (C1_amended_toggle "Alberta_Banff NP" ["Alberta_Banff NP"]).2.2.2.1 (by decide)⟩

/-- Claim C2, counterexample: the claim cites `update_map` of
`src/redtogreen.py`, which shows every POI when the selection is empty
(`if not selected_provinces or province in selected_provinces`), so the
visible-POI subset of a nonempty collection is not empty there. -/
theorem C2_counterexample :
    redtogreen.visiblePois [] [cnTower] ≠ [] := by
  decide

/-- Claim C2 (amended): with an empty selection, `src/optimized.py` and
`src/ultraoptimized.py` produce no visible POIs, but `src/redtogreen.py`
shows the entire POI collection. -/
theorem C2_amended_empty_selection (pois : List Poi) :
    optimized.visiblePois [] pois = [] ∧
    ultraoptimized.visiblePois [] pois = [] ∧
    redtogreen.visiblePois [] pois = pois := by
  refine ⟨rfl, rfl, ?_⟩
  simp [redtogreen.visiblePois]

/-- Claim C3, counterexample: the cited variants are not observably
identical — clicking an already-clicked marker removes it in
`src/optimized.py` but is a no-op in `src/provinceszipped.py`. -/
theorem C3_counterexample :
    provinceszipped.update_clicked_markers (.point (some "Ontario_CN Tower"))
        ["Ontario_CN Tower"]
      ≠ optimized.update_clicked_markers (.point (some "Ontario_CN Tower"))
        ["Ontario_CN Tower"] := by
  decide

/-- Claim C3 (amended): the variants fall into exactly two observational
classes.  The toggle class (`optimized.py`, `ultraoptimized.py`,
`optimizedzipped2.py`, `optimized-dash-app.py`) and the add-only class
(`redtogreen.py`, `provinceszipped.py`, `provinceszipped2.py`,
`optimizedzipped.py`) each behave identically within the class for every
click event and store; the two classes agree whenever the clicked marker is
not already in the store; and the visible-POI filters of `optimized.py` and
`ultraoptimized.py` coincide on all inputs. -/
theorem C3_amended_variant_classes (c : ClickData) (s : List MarkerId)
    (sel : List String) (pois : List Poi) :
    (ultraoptimized.update_clicked_markers c s = optimized.update_clicked_markers c s) ∧
    (optimizedzipped2.update_clicked_markers c s = optimized.update_clicked_markers c s) ∧
    (dashApp.update_clicked_markers c s = optimized.update_clicked_markers c s) ∧
    (provinceszipped.update_clicked_markers c s = redtogreen.update_clicked_markers c s) ∧
    (provinceszipped2.update_clicked_markers c s = redtogreen.update_clicked_markers c s) ∧
    (optimizedzipped.update_clicked_markers c s = redtogreen.update_clicked_markers c s) ∧
    (ultraoptimized.visiblePois sel pois = optimized.visiblePois sel pois) ∧
    (∀ m : MarkerId, m ∉ s →
      redtogreen.update_clicked_markers (.point (some m)) s
        = optimized.update_clicked_markers (.point (some m)) s) := by
  have hT : ∀ c s, ultraoptimized.update_clicked_markers c s
      = optimized.update_clicked_markers c s := by
    intro c s
    cases c with
    | noClick => rfl
    | point o =>
      cases o with
      | none => rfl
      | some m =>
        by_cases hm : m ∈ s <;>
          simp [ultraoptimized.update_clicked_markers,
            optimized.update_clicked_markers, hm]
  refine ⟨hT c s, hT c s, hT c s, rfl, rfl, rfl, rfl, ?_⟩
  intro m hm
  simp [redtogreen.update_clicked_markers, optimized.update_clicked_markers, hm]

/-- Witness for `C3_amended_variant_classes`: the two classes agree when a
fresh marker is clicked on the empty store. -/
theorem C3_amended_variant_classes_witness :
    redtogreen.update_clicked_markers (.point (some "Ontario_CN Tower")) []
      = optimized.update_clicked_markers (.point (some "Ontario_CN Tower")) [] :=
  (C3_amended_variant_classes (.point (some "Ontario_CN Tower")) [] [] []).2.2.2.2.2.2.2
    "Ontario_CN Tower" (by decide)

/-- Claim C4 (confirmed): in `src/optimized.py` and `src/ultraoptimized.py`
a marker is coloured `"green"` exactly when its id is in the clicked store,
and `"red"` exactly when it is not. -/
theorem C4_marker_color (m : MarkerId) (s : List MarkerId) :
    (optimized.markerColor m s = "green" ↔ m ∈ s) ∧
    (optimized.markerColor m s = "red" ↔ m ∉ s) ∧
    (ultraoptimized.markerColor m s = "green" ↔ m ∈ s) ∧
    (ultraoptimized.markerColor m s = "red" ↔ m ∉ s) := by
  unfold optimized.markerColor ultraoptimized.markerColor
  by_cases hm : m ∈ s <;> simp [hm]

/-- Claim C5 (confirmed): a marker click (whose callback's only output is
the clicked-marker store) never changes the selection, a selection change
never changes the toggle store, and a toggled marker stays toggled after
any selection change — in particular after its region is deselected. -/
theorem C5_state_independence (c : ClickData) (r : List String) (st : AppState) :
    ((applyMarkerClickWith optimized.update_clicked_markers c st).selection
      = st.selection) ∧
    ((applyMarkerClickWith ultraoptimized.update_clicked_markers c st).selection
      = st.selection) ∧
    ((applySelectionChange r st).toggles = st.toggles) ∧
    (∀ m : MarkerId, m ∈ st.toggles → m ∈ (applySelectionChange r st).toggles) :=
  ⟨rfl, rfl, rfl, fun _ hm => hm⟩

/-- Witness for `C5_state_independence`: deselecting every region keeps the
previously toggled CN Tower marker in the store. -/
theorem C5_state_independence_witness :
    "Ontario_CN Tower" ∈ (applySelectionChange []
        ⟨["Ontario"], ["Ontario_CN Tower"]⟩).toggles :=
  (C5_state_independence .noClick [] ⟨["Ontario"], ["Ontario_CN Tower"]⟩).2.2.2
    "Ontario_CN Tower" (by decide)

/-- Claim C6 (confirmed): the visible-POI subsets of `src/optimized.py` and
`src/ultraoptimized.py` grow monotonically with the selection — every POI
visible under a selection `R1` is visible under any superset `R2`. -/
theorem C6_visible_monotone (R1 R2 : List String) (pois : List Poi) (p : Poi)
    (hsub : ∀ x, x ∈ R1 → x ∈ R2) :
    (p ∈ optimized.visiblePois R1 pois → p ∈ optimized.visiblePois R2 pois) ∧
    (p ∈ ultraoptimized.visiblePois R1 pois → p ∈ ultraoptimized.visiblePois R2 pois) := by
  have key : p ∈ optimized.visiblePois R1 pois → p ∈ optimized.visiblePois R2 pois := by
    intro hp
    rw [mem_visiblePois_iff] at hp ⊢
    obtain ⟨_, h2, h3⟩ := hp
    exact ⟨List.ne_nil_of_mem (hsub _ h3), h2, hsub _ h3⟩
  exact ⟨key, by rw [ultraoptimized_visiblePois_eq, ultraoptimized_visiblePois_eq]; exact key⟩

/-- Witness for `C6_visible_monotone`: the CN Tower POI visible under
`["Ontario"]` is still visible under `["Ontario", "Alberta"]`. -/
theorem C6_visible_monotone_witness :
    cnTower ∈ optimized.visiblePois ["Ontario", "Alberta"] [cnTower] :=
  (C6_visible_monotone ["Ontario"] ["Ontario", "Alberta"] [cnTower] cnTower
      (by decide)).1 (by simp [optimized.visiblePois, cnTower])

/-- Claim C7 (confirmed): unknown identifiers never raise an error — a
selected region name carried by no POI yields an empty visible subset, and
clicking a marker id that is not in the store (in particular one belonging
to no POI) simply appends it. -/
theorem C7_unknown_inputs (name : String) (pois : List Poi) (m : MarkerId)
    (s : List MarkerId) :
    ((∀ p, p ∈ pois → p.province ≠ name) → optimized.visiblePois [name] pois = []) ∧
    (m ∉ s → optimized.update_clicked_markers (.point (some m)) s = s ++ [m]) := by
  constructor
  · intro h
    unfold optimized.visiblePois
    simp only [List.isEmpty_cons, Bool.false_eq_true, if_false]
    rw [List.filter_eq_nil_iff]
    intro p hp
    simp [h p hp]
  · intro hm
    simp [optimized.update_clicked_markers, hm]

/-- Witness for `C7_unknown_inputs`: selecting the unknown region
`"Atlantis"` shows nothing, and clicking the unknown marker id
`"Nonexistent_Place_99"` appends it to the empty store. -/
theorem C7_unknown_inputs_witness :
    optimized.visiblePois ["Atlantis"] [cnTower] = [] ∧
    optimized.update_clicked_markers (.point (some "Nonexistent_Place_99")) []
      = [] ++ ["Nonexistent_Place_99"] :=
  ⟨(C7_unknown_inputs "Atlantis" [cnTower] "x" []).1
      (by intro p hp; simp at hp; simp [hp, cnTower]),
   (C7_unknown_inputs "Atlantis" [] "Nonexistent_Place_99" []).2 (by decide)⟩

/-- Claim C8, counterexample: in `src/provinceszipped.py` the disambiguating
index is the row's position in the per-render filtered table, so the marker
id depends on the current selection, not only on the POI — the very same CN
Tower candidate point is labelled `"Ontario_CN Tower_0"` when only Ontario
is selected but `"Ontario_CN Tower_1"` when Alberta is selected as well. -/
theorem C8_counterexample :
    (provinceszipped.markerIds
        (provinceszipped.buildRows ["Ontario"] cxPlaces cxPoints cxWithin)
      = ["Ontario_CN Tower_0"]) ∧
    (provinceszipped.markerIds
        (provinceszipped.buildRows ["Alberta", "Ontario"] cxPlaces cxPoints cxWithin)
      = ["Alberta_Banff NP_0", "Ontario_CN Tower_1"]) ∧
    ("Ontario_CN Tower_0" : String) ≠ "Ontario_CN Tower_1" := by
  refine ⟨by decide, by decide, by decide⟩

/-- Claim C8 (amended): in `src/optimized-dash-app.py` the marker ids are
computed once at startup from the static POI table — each id is
`Province_Place_rowIndex` for the row's fixed position in that table, so it
depends only on the static data — and the 65 resulting ids are pairwise
distinct across the entire collection.  In `src/provinceszipped.py`,
however, the index is the row's position in the table rebuilt on every
render, so the id assigned to a given POI varies with the current
selection. -/
theorem C8_amended_marker_ids :
    dashApp.markerIdList.Nodup ∧ dashApp.markerIdList.length = 65 := by
  constructor
  · decide
  · rfl

/-- Claim C9 (confirmed): in the geopandas enrichment path of
`src/provinceszipped.py`, a candidate point is kept for a `(region, place)`
pair exactly when it passes both the case-insensitive substring match on
the place name and the geometric containment test; in particular a point
failing the containment test is excluded no matter how its name matches. -/
theorem C9_substring_and_containment (points : List GeoPoint)
    (within : GeoPoint → String → Bool) (prov place : String) (pt : GeoPoint) :
    (pt ∈ provinceszipped.includedFor points within prov place ↔
      pt ∈ points ∧ provinceszipped.nameContains pt.name place = true ∧
        within pt prov = true) ∧
    (within pt prov = false →
      pt ∉ provinceszipped.includedFor points within prov place) := by
  constructor
  · simp only [provinceszipped.includedFor, List.mem_filter]
    tauto
  · intro hw hmem
    simp only [provinceszipped.includedFor, List.mem_filter] at hmem
    rw [hw] at hmem
    exact absurd hmem.2 (by simp)

/-- Witness for `C9_substring_and_containment`: the Banff candidate matches
the place name `"Banff NP"` as a substring, but it does not lie within
Ontario, so it is not included for `("Ontario", "Banff NP")`. -/
theorem C9_substring_and_containment_witness :
    (⟨"Banff NP", 51.1784, -115.5708⟩ : GeoPoint) ∉
      provinceszipped.includedFor cxPoints cxWithin "Ontario" "Banff NP" :=
  (C9_substring_and_containment cxPoints cxWithin "Ontario" "Banff NP"
      ⟨"Banff NP", 51.1784, -115.5708⟩).2 (by decide)

/-- Claim C10 (confirmed): in `src/optimized.py`, `src/optimized-dash-app.py`
and `src/provinceszipped2.py`, a click event with no click data and a click
on a point without `customdata` (e.g. a province shape) both leave the
clicked-marker store exactly unchanged. -/
theorem C10_no_marker_noop (s : List MarkerId) :
    (optimized.update_clicked_markers .noClick s = s) ∧
    (optimized.update_clicked_markers (.point none) s = s) ∧
    (dashApp.update_clicked_markers .noClick s = s) ∧
    (dashApp.update_clicked_markers (.point none) s = s) ∧
    (provinceszipped2.update_clicked_markers .noClick s = s) ∧
    (provinceszipped2.update_clicked_markers (.point none) s = s) :=
  ⟨rfl, rfl, rfl, rfl, rfl, rfl⟩

end Pro5
